import Mathlib

/-!
Verification of `make_data_privacy_rag_web_app.py`, a single-file
human-in-the-loop data-annotation web app.

The embedding models:
* JSON values (`JValue`) as produced by Python's `json.loads`;
* each validator (`check_categories`, `check_article_data`, `check_qa_data`)
  as a pure function returning a `CheckResult`: `success v` models
  `return v`, `failure msg` models `error(msg); return False`, and
  `raised` models an uncaught Python exception (e.g. `TypeError` from
  the `in` operator applied to a non-container value);
* Python's `json.loads` as an abstract `parse : String → Option JValue`
  argument (`none` models a parse exception, which the bare `except:`
  in the source catches), and `json.dumps` as an abstract
  `dumps : JValue → String` argument — both are standard-library code,
  external to this repository;
* the persistence layer and the Streamlit flow-gating expressions
  at their call sites.
-/

set_option autoImplicit false

namespace DataPrep

/-- A JSON value, the result type of Python's `json.loads`.
Numbers are modelled as integers (no claim depends on fractional values);
objects are insertion-ordered key/value lists, as Python dicts are. -/
inductive JValue where
  | jnull
  | jbool (b : Bool)
  | jnum (n : Int)
  | jstr (s : String)
  | jarr (elems : List JValue)
  | jobj (pairs : List (String × JValue))

/-- Result of running one validator once: `success v` models `return v`;
`failure msg` models `error(msg)` followed by `return False`;
`raised` models an uncaught Python exception escaping the function. -/
inductive CheckResult (α : Type) where
  | success (val : α)
  | failure (msg : String)
  | raised
  deriving DecidableEq

/-- The ASCII whitespace characters removed by Python's `str.strip()`. -/
def isPyWhitespace (c : Char) : Bool :=
  c == ' ' || c == '\t' || c == '\n' || c == '\r' || c == '\x0b' || c == '\x0c'

/-- Python's `s.strip()`: remove leading and trailing whitespace. -/
def pyStrip (s : String) : String :=
  ⟨((s.toList.dropWhile isPyWhitespace).reverse.dropWhile isPyWhitespace).reverse⟩

/-- `listStartsWith needle hay`: `needle` is a leading segment of `hay`. -/
def listStartsWith : List Char → List Char → Bool
  | [], _ => true
  | _ :: _, [] => false
  | a :: as, b :: bs => a == b && listStartsWith as bs

/-- Core of Python's substring test: does `needle` occur contiguously in the
haystack? -/
def strContainsCore (needle : List Char) : List Char → Bool
  | [] => needle.isEmpty
  | c :: cs => listStartsWith needle (c :: cs) || strContainsCore needle cs

/-- Python's `needle in hay` for strings: substring containment. -/
def strContains (hay needle : String) : Bool :=
  strContainsCore needle.toList hay.toList

/-- Python's `k == x` where `k` is a `str` and `x` a JSON-decoded value:
true exactly when `x` is the equal string (no cross-type equality). -/
def isStrEq (k : String) : JValue → Bool
  | .jstr s => s == k
  | _ => false

/-- Python's `k in v` for a `str` key `k` and a JSON-decoded value `v`:
substring test on strings, element equality on lists, key membership on
dicts; on `None`, booleans and numbers the operator raises `TypeError`
(modelled by `none`). -/
def pyContains (k : String) : JValue → Option Bool
  | .jstr s => some (strContains s k)
  | .jarr xs => some (xs.any (isStrEq k))
  | .jobj kvs => some (kvs.any (fun p => p.1 == k))
  | _ => none

/-- Does Python's `in` operator apply to this value without raising? -/
def supportsMembership : JValue → Bool
  | .jstr _ => true
  | .jarr _ => true
  | .jobj _ => true
  | _ => false

/-- Specification-side membership: `k` is present in `v` (substring for
strings, element for lists, key for objects; never raises). -/
def hasMemberStr (v : JValue) (k : String) : Bool :=
  match v with
  | .jstr s => strContains s k
  | .jarr xs => xs.any (isStrEq k)
  | .jobj kvs => kvs.any (fun p => p.1 == k)
  | _ => false

/-- Python truthiness of a JSON-decoded value (`bool(v)`). -/
def truthy : JValue → Bool
  | .jnull => false
  | .jbool b => b
  | .jnum n => n != 0
  | .jstr s => s != ""
  | .jarr xs => !xs.isEmpty
  | .jobj kvs => !kvs.isEmpty

/-- `v` is a Python `list` (`isinstance(v, list)`). -/
def isListV : JValue → Bool
  | .jarr _ => true
  | _ => false

/-- `v` is a JSON object (a Python `dict`). -/
def isObjV : JValue → Bool
  | .jobj _ => true
  | _ => false

theorem pyContains_eq_hasMemberStr (k : String) (v : JValue)
    (h : supportsMembership v = true) : pyContains k v = some (hasMemberStr v k) := by
  cases v <;> simp_all [supportsMembership, pyContains, hasMemberStr]

/-- `check_categories` (lines 81–93): strip the entries, drop falsy ones,
deduplicate (`list(set(...))` — only the length is used), and require the
count to lie in `[4, 7]`, reporting a dedicated message on each side. -/
def check_categories (categories : List String) : CheckResult Bool :=
  let cs := (categories.filter (fun x => x != "" && pyStrip x != "")).map pyStrip
  let cs := cs.dedup
  if cs.length < 4 then .failure "You must choose at least 4 categories"
  else if cs.length > 7 then .failure "You must choose at most 7 categories"
  else .success true

/-- Specification-side count: the number of distinct, trimmed, non-empty
entries of the input list. -/
def nDistinctTrimmed (categories : List String) : Nat :=
  (((categories.map pyStrip).filter (fun s => s != "")).dedup).length

theorem filter_nonblank_eq (categories : List String) :
    categories.filter (fun x => x != "" && pyStrip x != "")
      = categories.filter (fun x => pyStrip x != "") := by
  apply List.filter_congr
  intro x _
  by_cases hx : x = ""
  · subst hx; decide
  · simp [hx]

theorem map_strip_filter (categories : List String) :
    (categories.filter (fun x => pyStrip x != "")).map pyStrip
      = (categories.map pyStrip).filter (fun s => s != "") := by
  induction categories with
  | nil => rfl
  | cons c cs ih =>
    by_cases hc : pyStrip c = ""
    · simp [List.filter_cons, List.map_cons, hc, ih]
    · simp [List.filter_cons, List.map_cons, hc, ih]

theorem check_categories_count (categories : List String) :
    check_categories categories =
      (if nDistinctTrimmed categories < 4 then
        .failure "You must choose at least 4 categories"
      else if nDistinctTrimmed categories > 7 then
        .failure "You must choose at most 7 categories"
      else .success true) := by
  unfold check_categories nDistinctTrimmed
  rw [filter_nonblank_eq, map_strip_filter]

/-- C1: the category validator succeeds iff the number `n` of distinct,
trimmed, non-empty entries satisfies `4 ≤ n ≤ 7`; for `n < 4` it fails with
the "at least 4" message, for `n > 7` with the distinct "at most 7"
message, for every input list (blanks, duplicates and padding included). -/
theorem check_categories_spec (categories : List String) :
    (check_categories categories = .success true ↔
      4 ≤ nDistinctTrimmed categories ∧ nDistinctTrimmed categories ≤ 7)
  ∧ (nDistinctTrimmed categories < 4 →
      check_categories categories = .failure "You must choose at least 4 categories")
  ∧ (7 < nDistinctTrimmed categories →
      check_categories categories = .failure "You must choose at most 7 categories")
  ∧ ("You must choose at least 4 categories" : String)
      ≠ "You must choose at most 7 categories" := by
  rw [check_categories_count]
  refine ⟨?_, ?_, ?_, by decide⟩
  · split_ifs with h1 h2 <;> simp <;> omega
  · intro h; rw [if_pos h]
  · intro h
    rw [if_neg (by omega), if_pos h]

theorem check_categories_spec_witness :
    check_categories ["a", "b", "c"] = .failure "You must choose at least 4 categories"
  ∧ check_categories [" a", "a ", "b", "c", "d", "", "  "] = .success true :=
  ⟨(check_categories_spec ["a", "b", "c"]).2.1 (by decide),
   ((check_categories_spec [" a", "a ", "b", "c", "d", "", "  "]).1).mpr (by decide)⟩

/-- `check_article_data` (lines 96–112): `json.loads` the raw text (any
exception is caught and reported as invalid JSON), then require membership
of `'article_text'` and of `'sensitive_category_to_instances'` in the
parsed value, and return the parsed value. The membership tests use
Python's `in`, which raises `TypeError` on non-container values. -/
def check_article_data (parse : String → Option JValue) (raw : String) :
    CheckResult JValue :=
  match parse raw with
  | none => .failure "You must provide a valid JSON here."
  | some article_data =>
    match pyContains "article_text" article_data with
    | none => .raised
    | some false => .failure "You must provide an article text."
    | some true =>
      match pyContains "sensitive_category_to_instances" article_data with
      | none => .raised
      | some false => .failure "You must provide a sensitive_category_to_instances mapping."
      | some true => .success article_data

/-- One element's check in `check_qa_data` (line 126):
`'question_text' in x and 'answer_text' in x`, with Python's short-circuit
`and`; `none` models a `TypeError` raised by `in`. -/
def elemCheck (x : JValue) : Option Bool :=
  match pyContains "question_text" x with
  | none => none
  | some false => some false
  | some true => pyContains "answer_text" x

/-- The eagerly-built list comprehension of line 126: every element is
evaluated; any raising element makes the whole expression raise. -/
def pairFlags : List JValue → Option (List Bool)
  | [] => some []
  | x :: xs =>
    match elemCheck x, pairFlags xs with
    | some b, some bs => some (b :: bs)
    | _, _ => none

/-- `check_qa_data` (lines 114–130): `json.loads` (exceptions reported as
invalid JSON), require a `list`, then require every element to contain
both `'question_text'` and `'answer_text'`, and return the parsed list. -/
def check_qa_data (parse : String → Option JValue) (raw : String) :
    CheckResult (List JValue) :=
  match parse raw with
  | none => .failure "You must provide a valid JSON here."
  | some (.jarr xs) =>
    match pairFlags xs with
    | none => .raised
    | some bs =>
      if bs.all id then .success xs
      else .failure "Every Q&A pair must have a \"question_text\" and an \"answer_text\" entry."
  | some _ => .failure "You must provide a list of Q&A pairs."

theorem pairFlags_of_supported (xs : List JValue)
    (h : ∀ x ∈ xs, supportsMembership x = true) :
    pairFlags xs = some (xs.map
      (fun x => hasMemberStr x "question_text" && hasMemberStr x "answer_text")) := by
  induction xs with
  | nil => rfl
  | cons x xs ih =>
    have hx : supportsMembership x = true := h x (List.mem_cons_self x xs)
    have ht : ∀ y ∈ xs, supportsMembership y = true :=
      fun y hy => h y (List.mem_cons_of_mem _ hy)
    have he : elemCheck x
        = some (hasMemberStr x "question_text" && hasMemberStr x "answer_text") := by
      unfold elemCheck
      rw [pyContains_eq_hasMemberStr "question_text" x hx,
        pyContains_eq_hasMemberStr "answer_text" x hx]
      cases hasMemberStr x "question_text" <;> simp
    simp [pairFlags, he, ih ht]

/-- C5: for every input string that is not valid JSON, both validators
report the same "invalid JSON" message and signal failure; neither lets an
exception escape (the bare `except:` catches the parse error). -/
theorem invalid_json_both_fail (parse : String → Option JValue) (raw : String)
    (h : parse raw = none) :
    check_article_data parse raw = .failure "You must provide a valid JSON here."
  ∧ check_qa_data parse raw = .failure "You must provide a valid JSON here."
  ∧ check_article_data parse raw ≠ .raised
  ∧ check_qa_data parse raw ≠ .raised := by
  unfold check_article_data check_qa_data
  rw [h]
  exact ⟨rfl, rfl, fun hc => CheckResult.noConfusion hc,
    fun hc => CheckResult.noConfusion hc⟩

theorem invalid_json_both_fail_witness :
    check_article_data (fun _ => none) "not json"
      = .failure "You must provide a valid JSON here."
  ∧ check_qa_data (fun _ => none) "not json"
      = .failure "You must provide a valid JSON here." :=
  ⟨(invalid_json_both_fail (fun _ => none) "not json" rfl).1,
   (invalid_json_both_fail (fun _ => none) "not json" rfl).2.1⟩

/-- C3 counterexample: the claim covers every input string, but on the
valid-JSON input `"3"` (parsed value: the number 3) the membership test
`'article_text' in 3` raises an uncaught `TypeError` — the validator
neither fails with a reported message nor returns the parsed value. -/
theorem check_article_data_counterexample :
    check_article_data (fun _ => some (.jnum 3)) "3" = .raised := rfl

/-- C3 (amended): restricted to parsed values supporting Python's `in`
(strings, lists, objects), the Article-Data validator behaves as claimed:
invalid JSON gives the "invalid JSON" message; a value without
`article_text` gives its message; one with `article_text` but without
`sensitive_category_to_instances` gives a distinct message; otherwise the
parsed value is returned unchanged (extra keys allowed). On parsed
numbers, booleans or null the membership test raises instead. -/
theorem check_article_data_spec (parse : String → Option JValue) (raw : String) :
    (parse raw = none →
      check_article_data parse raw = .failure "You must provide a valid JSON here.")
  ∧ (∀ v, parse raw = some v → supportsMembership v = true →
      check_article_data parse raw =
        (if hasMemberStr v "article_text" then
          if hasMemberStr v "sensitive_category_to_instances" then .success v
          else .failure "You must provide a sensitive_category_to_instances mapping."
        else .failure "You must provide an article text."))
  ∧ (∀ v, parse raw = some v → supportsMembership v = false →
      check_article_data parse raw = .raised)
  ∧ ("You must provide an article text." : String)
      ≠ "You must provide a sensitive_category_to_instances mapping."
  ∧ ("You must provide a valid JSON here." : String)
      ≠ "You must provide an article text." := by
  refine ⟨?_, ?_, ?_, by decide, by decide⟩
  · intro h; unfold check_article_data; rw [h]
  · intro v hv hm
    simp only [check_article_data, hv]
    rw [pyContains_eq_hasMemberStr "article_text" v hm,
      pyContains_eq_hasMemberStr "sensitive_category_to_instances" v hm]
    cases h1 : hasMemberStr v "article_text" <;>
      cases h2 : hasMemberStr v "sensitive_category_to_instances" <;> simp
  · intro v hv hm
    unfold check_article_data
    rw [hv]
    cases v <;> simp_all [supportsMembership, pyContains]

theorem check_article_data_spec_witness :
    check_article_data
      (fun _ => some (.jobj [("article_text", .jstr "a"),
        ("sensitive_category_to_instances", .jobj []), ("extra", .jnull)])) "x"
      = .success (.jobj [("article_text", .jstr "a"),
        ("sensitive_category_to_instances", .jobj []), ("extra", .jnull)]) := by
  have h := (check_article_data_spec
    (fun _ => some (.jobj [("article_text", .jstr "a"),
      ("sensitive_category_to_instances", .jobj []), ("extra", .jnull)])) "x").2.1
    (.jobj [("article_text", .jstr "a"),
      ("sensitive_category_to_instances", .jobj []), ("extra", .jnull)]) rfl rfl
  rw [h]
  rfl

/-- C4 counterexample: the claim covers every input string, but on the
valid-JSON input `"[1]"` (a list whose element is the number 1) the
element test `'question_text' in 1` raises an uncaught `TypeError` — the
validator does not fail with the third message. -/
theorem check_qa_data_counterexample :
    check_qa_data (fun _ => some (.jarr [.jnum 1])) "[1]" = .raised := rfl

theorem elemCheck_none (x : JValue) (h : supportsMembership x = false) :
    elemCheck x = none := by
  unfold elemCheck
  cases x <;> simp_all [supportsMembership, pyContains]

theorem pairFlags_none_of_unsupported (xs : List JValue)
    (h : ∃ x ∈ xs, supportsMembership x = false) :
    pairFlags xs = none := by
  induction xs with
  | nil =>
    obtain ⟨x, hx, _⟩ := h
    exact absurd hx (List.not_mem_nil x)
  | cons x xs ih =>
    obtain ⟨y, hy, hys⟩ := h
    rcases List.mem_cons.mp hy with rfl | hmem
    · simp [pairFlags, elemCheck_none y hys]
    · simp only [pairFlags, ih ⟨y, hmem, hys⟩]
      cases elemCheck x <;> rfl

/-- C4 (amended): invalid JSON gives the "invalid JSON" message; a parsed
non-list gives a distinct message; a parsed list whose elements all
support Python's `in` succeeds iff every element contains both
`question_text` and `answer_text`, failing with a third distinct message
(naming no element) otherwise. Any list containing a number, boolean or
null element makes the membership test raise an uncaught `TypeError`
instead. -/
theorem check_qa_data_spec (parse : String → Option JValue) (raw : String) :
    (parse raw = none →
      check_qa_data parse raw = .failure "You must provide a valid JSON here.")
  ∧ (∀ v, parse raw = some v → isListV v = false →
      check_qa_data parse raw = .failure "You must provide a list of Q&A pairs.")
  ∧ (∀ xs, parse raw = some (.jarr xs) → (∀ x ∈ xs, supportsMembership x = true) →
      check_qa_data parse raw =
        (if xs.all (fun x => hasMemberStr x "question_text" && hasMemberStr x "answer_text")
        then .success xs
        else .failure "Every Q&A pair must have a \"question_text\" and an \"answer_text\" entry."))
  ∧ (∀ xs, parse raw = some (.jarr xs) → (∃ x ∈ xs, supportsMembership x = false) →
      check_qa_data parse raw = .raised)
  ∧ ("You must provide a valid JSON here." : String)
      ≠ "You must provide a list of Q&A pairs."
  ∧ ("You must provide a list of Q&A pairs." : String)
      ≠ "Every Q&A pair must have a \"question_text\" and an \"answer_text\" entry."
  ∧ ("You must provide a valid JSON here." : String)
      ≠ "Every Q&A pair must have a \"question_text\" and an \"answer_text\" entry." := by
  refine ⟨?_, ?_, ?_, ?_, by decide, by decide, by decide⟩
  · intro h; unfold check_qa_data; rw [h]
  · intro v hv hl
    unfold check_qa_data
    rw [hv]
    cases v <;> simp_all [isListV]
  · intro xs hv hall
    simp only [check_qa_data, hv]
    rw [pairFlags_of_supported xs hall]
    simp [List.all_map, Function.comp]
  · intro xs hv hex
    simp only [check_qa_data, hv, pairFlags_none_of_unsupported xs hex]

theorem check_qa_data_spec_witness :
    check_qa_data (fun _ => some (.jarr [.jobj [("question_text", .jstr "Q"),
        ("answer_text", .jstr "A")]])) "x"
      = .success [.jobj [("question_text", .jstr "Q"), ("answer_text", .jstr "A")]]
  ∧ check_qa_data (fun _ => some (.jarr [.jobj [("question_text", .jstr "Q")]])) "y"
      = .failure "Every Q&A pair must have a \"question_text\" and an \"answer_text\" entry."
  ∧ check_qa_data (fun _ => some (.jarr [.jbool true])) "z" = .raised := by
  refine ⟨?_, ?_, ?_⟩
  · have h := (check_qa_data_spec (fun _ => some (.jarr [.jobj [("question_text", .jstr "Q"),
      ("answer_text", .jstr "A")]])) "x").2.2.1
      [.jobj [("question_text", .jstr "Q"), ("answer_text", .jstr "A")]] rfl (by decide)
    rw [h]
    rfl
  · have h := (check_qa_data_spec (fun _ => some (.jarr [.jobj [("question_text", .jstr "Q")]])) "y").2.2.1
      [.jobj [("question_text", .jstr "Q")]] rfl (by decide)
    rw [h]
    rfl
  · exact (check_qa_data_spec (fun _ => some (.jarr [.jbool true])) "z").2.2.2.1
      [.jbool true] rfl ⟨.jbool true, List.mem_cons_self _ _, rfl⟩

/-- The flow controller's gate at line 213:
`if qas := check_qa_data(raw2):` — the annotation step is rendered only if
the value returned by the validator is truthy (`False` and the empty list
are both falsy). -/
def qa_step_renders (parse : String → Option JValue) (raw : String) : Bool :=
  match check_qa_data parse raw with
  | .success xs => truthy (.jarr xs)
  | _ => false

/-- C8: on a pasted `"[]"` the QA validator succeeds with the empty list
and reports no error, yet the walrus-`if` gate sees a falsy value and the
annotation step is not rendered. -/
theorem empty_qa_list_gating (parse : String → Option JValue) (raw : String)
    (h : parse raw = some (.jarr [])) :
    check_qa_data parse raw = .success []
  ∧ (∀ msg, check_qa_data parse raw ≠ .failure msg)
  ∧ qa_step_renders parse raw = false := by
  have hs : check_qa_data parse raw = .success [] := by
    simp only [check_qa_data, h, pairFlags, List.all_nil, if_pos]
  refine ⟨hs, ?_, ?_⟩
  · intro msg hc
    rw [hs] at hc
    exact CheckResult.noConfusion hc
  · simp only [qa_step_renders, hs, truthy, List.isEmpty_nil, Bool.not_true]

theorem empty_qa_list_gating_witness :
    check_qa_data (fun _ => some (.jarr [])) "[]" = .success []
  ∧ qa_step_renders (fun _ => some (.jarr [])) "[]" = false :=
  ⟨(empty_qa_list_gating (fun _ => some (.jarr [])) "[]" rfl).1,
   (empty_qa_list_gating (fun _ => some (.jarr [])) "[]" rfl).2.2⟩

/-- C9: the Article-Data validator never checks that the parsed value is
an object: a JSON string whose character content contains both required
key names as substrings passes both `in` tests and is returned as-is. -/
theorem article_data_string_accepted (parse : String → Option JValue)
    (raw s : String) (h : parse raw = some (.jstr s))
    (h1 : strContains s "article_text" = true)
    (h2 : strContains s "sensitive_category_to_instances" = true) :
    check_article_data parse raw = .success (.jstr s)
  ∧ isObjV (.jstr s) = false := by
  constructor
  · simp only [check_article_data, h, pyContains, h1, h2]
  · rfl

theorem article_data_string_accepted_witness :
    check_article_data
      (fun _ => some (.jstr "article_text then sensitive_category_to_instances")) "q"
      = .success (.jstr "article_text then sensitive_category_to_instances") :=
  (article_data_string_accepted
    (fun _ => some (.jstr "article_text then sensitive_category_to_instances")) "q"
    "article_text then sensitive_category_to_instances" rfl (by decide) (by decide)).1

/-- The file name written by `save_article_data` (line 150) when
`random.randint(0, 10000)` returns `r`. -/
def saveFileName (r : Nat) : String :=
  "annotated-synthetic-article" ++ toString r ++ ".json"

/-- The possible results of Python's `random.randint(a, b)`: by the Python
standard library contract, any integer `N` with `a ≤ N ≤ b` — both
endpoints included (`randint` is an alias for `randrange(a, b+1)`). -/
def randintCanReturn (a b n : Nat) : Prop := a ≤ n ∧ n ≤ b

instance (a b n : Nat) : Decidable (randintCanReturn a b n) :=
  inferInstanceAs (Decidable (a ≤ n ∧ n ≤ b))

/-- C2 counterexample: `random.randint(0, 10000)` can return 10000 itself,
so a save can produce the suffix 10000, which violates the claimed bound
`N < 10000`. -/
theorem save_filename_counterexample :
    randintCanReturn 0 10000 10000
  ∧ ¬ (10000 < 10000)
  ∧ saveFileName 10000 = "annotated-synthetic-article10000.json" :=
  ⟨⟨Nat.zero_le _, Nat.le_refl _⟩, by omega, by decide⟩

/-- C2 (amended): every save writes `annotated-synthetic-article<N>.json`
where `N` is drawn from the CLOSED interval `[0, 10000]`, i.e.
`0 ≤ N ≤ 10000` (Python's `randint` includes both endpoints). -/
theorem save_filename_range (n : Nat) (h : randintCanReturn 0 10000 n) :
    saveFileName n = "annotated-synthetic-article" ++ toString n ++ ".json"
  ∧ 0 ≤ n ∧ n ≤ 10000 :=
  ⟨rfl, Nat.zero_le n, h.2⟩

theorem save_filename_range_witness :
    saveFileName 9999 = "annotated-synthetic-article" ++ toString 9999 ++ ".json"
  ∧ 0 ≤ 9999 ∧ 9999 ≤ 10000 :=
  save_filename_range 9999 ⟨Nat.zero_le _, by omega⟩

/-- The files picked up by `get_articles_data` (lines 143–144): the
directory entries (name, contents) whose name contains the substring
`annotated-synthetic-article`. -/
def matchingFiles (dir : List (String × String)) : List (String × String) :=
  dir.filter (fun e => strContains e.1 "annotated-synthetic-article")

/-- The list comprehension of line 145: `json.loads` each matching file's
contents in order; a failing parse raises (modelled by `none`). -/
def parseAll (parse : String → Option JValue) :
    List (String × String) → Option (List JValue)
  | [] => some []
  | e :: es =>
    match parse e.2, parseAll parse es with
    | some v, some vs => some (v :: vs)
    | _, _ => none

/-- `get_articles_data` (lines 141–146): aggregate all matching files'
parsed contents into one JSON array and return its serialization's UTF-8
bytes (`json.dumps(data).encode('utf-8')`). -/
def get_articles_data (parse : String → Option JValue) (dumps : JValue → String)
    (dir : List (String × String)) : Option ByteArray :=
  match parseAll parse (matchingFiles dir) with
  | none => none
  | some vs => some ((dumps (.jarr vs)).toUTF8)

theorem parseAll_sound (parse : String → Option JValue) :
    ∀ (l : List (String × String)) (vs : List JValue),
      parseAll parse l = some vs →
      vs.length = l.length
      ∧ ∀ i (hi : i < l.length) (hv : i < vs.length),
          parse (l.get ⟨i, hi⟩).2 = some (vs.get ⟨i, hv⟩) := by
  intro l
  induction l with
  | nil =>
    intro vs h
    simp only [parseAll] at h
    cases h
    exact ⟨rfl, fun i hi => absurd hi (Nat.not_lt_zero i)⟩
  | cons e es ih =>
    intro vs h
    simp only [parseAll] at h
    cases hp : parse e.2 with
    | none => rw [hp] at h; exact absurd h (by simp)
    | some v =>
      cases hq : parseAll parse es with
      | none => rw [hp, hq] at h; exact absurd h (by simp)
      | some ws =>
        rw [hp, hq] at h
        cases h
        obtain ⟨hlen, hget⟩ := ih ws hq
        refine ⟨by simp [hlen], ?_⟩
        intro i hi hv
        cases i with
        | zero => exact hp
        | succ j =>
          exact hget j (Nat.lt_of_succ_lt_succ hi) (Nat.lt_of_succ_lt_succ hv)

/-- C6: if every file whose name contains `annotated-synthetic-article`
holds valid JSON, the export returns the UTF-8 bytes of the serialized
JSON array of exactly their parsed contents, one element per file, in
directory order. -/
theorem get_articles_data_spec (parse : String → Option JValue)
    (dumps : JValue → String) (dir : List (String × String)) (vs : List JValue)
    (h : parseAll parse (matchingFiles dir) = some vs) :
    get_articles_data parse dumps dir = some ((dumps (.jarr vs)).toUTF8)
  ∧ vs.length = (matchingFiles dir).length
  ∧ ∀ i (hi : i < (matchingFiles dir).length) (hv : i < vs.length),
      parse ((matchingFiles dir).get ⟨i, hi⟩).2 = some (vs.get ⟨i, hv⟩) := by
  obtain ⟨hlen, hget⟩ := parseAll_sound parse (matchingFiles dir) vs h
  refine ⟨?_, hlen, hget⟩
  simp only [get_articles_data, h]

theorem get_articles_data_spec_witness :
    get_articles_data (fun s => some (.jstr s)) (fun _ => "D")
      [("annotated-synthetic-article12.json", "{}"), ("notes.txt", "n"),
       ("annotated-synthetic-article7.json", "[]")]
      = some (("D" : String).toUTF8)
  ∧ ([JValue.jstr "{}", JValue.jstr "[]"]).length
      = (matchingFiles [("annotated-synthetic-article12.json", "{}"), ("notes.txt", "n"),
          ("annotated-synthetic-article7.json", "[]")]).length :=
  ⟨(get_articles_data_spec (fun s => some (.jstr s)) (fun _ => "D")
      [("annotated-synthetic-article12.json", "{}"), ("notes.txt", "n"),
       ("annotated-synthetic-article7.json", "[]")]
      [.jstr "{}", .jstr "[]"] rfl).1,
   (get_articles_data_spec (fun s => some (.jstr s)) (fun _ => "D")
      [("annotated-synthetic-article12.json", "{}"), ("notes.txt", "n"),
       ("annotated-synthetic-article7.json", "[]")]
      [.jstr "{}", .jstr "[]"] rfl).2.1⟩

/-- Python's dict-update step for `{**m, k: v}`: if `k` is already a key
its value is replaced in place, otherwise `(k, v)` is appended. -/
def dictInsert (m : List (String × JValue)) (k : String) (v : JValue) :
    List (String × JValue) :=
  if m.any (fun p => p.1 == k) then m.map (fun p => if p.1 == k then (k, v) else p)
  else m ++ [(k, v)]

/-- The dict literal passed to `save_article_data` by the submit handler
(lines 249–257). -/
def build_record (article_data : JValue) (edited_qas : List JValue)
    (qas : List JValue) (metadata : List (String × JValue)) (now : Int) :
    List (String × JValue) :=
  [("article_data", article_data),
   ("edited_qas", .jarr edited_qas),
   ("qas", .jarr qas),
   ("metadata", .jobj (dictInsert metadata "created_at" (.jnum now)))]

/-- C7 counterexample: a user-entered `created_at` metadata pair is NOT
passed through unchanged — the submit handler's `{**metadata,
'created_at': time()}` overwrites it with the timestamp. -/
theorem build_record_counterexample :
    build_record .jnull [] [] [("LLM", .jstr "gpt"), ("created_at", .jstr "user-entered")] 123
      = [("article_data", .jnull), ("edited_qas", .jarr []), ("qas", .jarr []),
         ("metadata", .jobj [("LLM", .jstr "gpt"), ("created_at", .jnum 123)])]
  ∧ JValue.jnum 123 ≠ JValue.jstr "user-entered" :=
  ⟨rfl, fun h => JValue.noConfusion h⟩

/-- C7 (amended): the persisted record has exactly the keys
`article_data`, `edited_qas`, `qas`, `metadata`; its `metadata` field is
the user-supplied mapping updated with `created_at ↦ timestamp`; every
user pair whose key is not `created_at` passes through unchanged (when no
user pair is named `created_at`, the update is a plain append). -/
theorem build_record_spec (article_data : JValue) (edited_qas qas : List JValue)
    (metadata : List (String × JValue)) (now : Int) :
    (build_record article_data edited_qas qas metadata now).map Prod.fst
      = ["article_data", "edited_qas", "qas", "metadata"]
  ∧ build_record article_data edited_qas qas metadata now
      = [("article_data", article_data),
         ("edited_qas", .jarr edited_qas),
         ("qas", .jarr qas),
         ("metadata", .jobj (dictInsert metadata "created_at" (.jnum now)))]
  ∧ (metadata.all (fun p => p.1 != "created_at") = true →
      dictInsert metadata "created_at" (.jnum now)
        = metadata ++ [("created_at", .jnum now)]) := by
  refine ⟨rfl, rfl, ?_⟩
  intro h
  unfold dictInsert
  rw [if_neg]
  intro hc
  rw [List.any_eq_true] at hc
  obtain ⟨p, hp, hpk⟩ := hc
  have := List.all_eq_true.mp h p hp
  simp only [bne_iff_ne, ne_eq] at this
  exact this (by simpa using hpk)

theorem build_record_spec_witness :
    (build_record (.jobj []) [] [] [("LLM", .jstr "gpt-x")] 5).map Prod.fst
      = ["article_data", "edited_qas", "qas", "metadata"]
  ∧ dictInsert [("LLM", .jstr "gpt-x")] "created_at" (.jnum 5)
      = [("LLM", .jstr "gpt-x")] ++ [("created_at", .jnum 5)] :=
  ⟨(build_record_spec (.jobj []) [] [] [("LLM", .jstr "gpt-x")] 5).1,
   (build_record_spec (.jobj []) [] [] [("LLM", .jstr "gpt-x")] 5).2.2 (by decide)⟩

/-- The `PromptBuilder` dataclass (lines 23–35). -/
structure PromptBuilder where
  article_topic : String
  sensitive_categories : List String
  num_words : Nat

/-- Python dict construction from a key/value sequence (a later duplicate
key overwrites in place), used for the comprehension on line 42. -/
def pyDict (pairs : List (String × JValue)) : List (String × JValue) :=
  pairs.foldl (fun m p => dictInsert m p.1 p.2) []

/-- `PromptBuilder.get_prompt` (lines 37–59): the article-generation
prompt, embedding the JSON serialization of the raw category list and of
the example output schema (`dumps` models `json.dumps(·, indent=2)`). -/
def PromptBuilder.get_prompt (dumps : JValue → String) (pb : PromptBuilder) : String :=
  let json_format : JValue :=
    .jobj [("article_text", .jstr "string"),
           ("sensitive_category_to_instances",
             .jobj (pyDict (pb.sensitive_categories.map (fun k => (k, JValue.jstr "string[]")))))]
  ("You will help me generate some data for a content moderation experiment.\n"
      ++ "Write a long (~ " ++ toString pb.num_words ++ " words) article about "
      ++ pb.article_topic ++ ",\n"
      ++ "containing examples of the following (synthetic) sensitive information:\n\n")
    ++ dumps (.jarr (pb.sensitive_categories.map JValue.jstr))
    ++ ("\n\n"
      ++ "For each of the aforementioned categories, map it to the corresponding entities\n"
      ++ "in the text that you generated.\n\n"
      ++ "Of course, there is no need to explain that all of the \"sensitive information\"\n"
      ++ "is entirely fictional and synthetic.\n\n"
      ++ "Provide your output in the following JSON format:\n\n"
      ++ "```json\n"
      ++ dumps json_format ++ "\n"
      ++ "```")

/-- The gate at lines 188–190: the article-generation prompt is rendered
only if `check_categories(categories)` returns a truthy value, and it is
built from the very list the user entered (the validator trims and
deduplicates only a local copy used for counting). -/
def article_prompt_step (dumps : JValue → String) (topic : String)
    (categories : List String) : Option String :=
  match check_categories categories with
  | .success b =>
    if b then some (PromptBuilder.get_prompt dumps ⟨topic, categories, 1000⟩) else none
  | _ => none

/-- C10: for every accepted category list the flow hands the ORIGINAL
entries (padding and duplicates intact) to the prompt builder, and the
prompt embeds the serialization of that original list. -/
theorem prompt_uses_original_categories (dumps : JValue → String) (topic : String)
    (categories : List String) (h : check_categories categories = .success true) :
    article_prompt_step dumps topic categories
      = some (PromptBuilder.get_prompt dumps ⟨topic, categories, 1000⟩)
  ∧ ∃ a b : String, PromptBuilder.get_prompt dumps ⟨topic, categories, 1000⟩
      = a ++ dumps (.jarr (categories.map JValue.jstr)) ++ b := by
  constructor
  · simp only [article_prompt_step, h, if_pos]
  · exact ⟨_, _, rfl⟩

theorem prompt_uses_original_categories_witness :
    article_prompt_step (fun _ => "J") "t" ["A ", "A ", "B", "C", "D"]
      = some (PromptBuilder.get_prompt (fun _ => "J") ⟨"t", ["A ", "A ", "B", "C", "D"], 1000⟩) :=
  (prompt_uses_original_categories (fun _ => "J") "t" ["A ", "A ", "B", "C", "D"]
    (by decide)).1

end DataPrep
